import Mathlib

/-!
Verification of the escrow bot's core: the escrow transaction state machine
(src/services/escrow_service.py), the dispute resolution subsystem
(src/dispute_system.py), the trust scoring engine (src/trust_system.py) and
the fee computation of the transaction creation flow
(src/handlers/transaction_handlers.py).

Modelling conventions: Python floats are rationals, `datetime` values are
rational timestamps (seconds), Python `None` is `Option.none`, and the
services' dict/database stores are maps `key → Option record`.  In-place
mutation of a fetched record is rendered by storing the updated record back
under its id; this matches the Python heap exactly on states whose
transaction map is keyed by the stored transaction's own id
(`EscrowState.KeyedById` below), which is the discipline the service itself
maintains (`self.transactions[transaction.id] = transaction`).
-/

namespace EscrowBot

/-- Transaction record (src/models/transaction.py).  The opaque `metadata`
dict is omitted: no modelled operation reads or writes it.  The `dispute`
dict the escrow service stores on a transaction holds a dispute status and an
optional resolution. -/
structure Transaction where
  id : String
  title : String
  description : String
  amount : ℚ
  fee : ℚ
  payment_method : String
  seller_id : Int
  seller_username : String
  buyer_id : Option Int
  buyer_username : Option String
  status : String
  created_at : ℚ
  updated_at : Option ℚ
  completed_at : Option ℚ
  dispute : Option (String × Option String)
  deriving Repr, DecidableEq

/-- `Transaction.total_amount` property (src/models/transaction.py lines 51-54). -/
def Transaction.total_amount (t : Transaction) : ℚ :=
  t.amount + t.fee

/-- The dispute dict the escrow service keeps per transaction
(src/services/escrow_service.py lines 278-289). -/
structure EsDispute where
  transaction_id : String
  opened_by : String
  reason : String
  evidence : String
  response : Option String
  status : String
  resolution : Option String
  opened_at : ℚ
  resolved_at : Option ℚ
  deriving Repr, DecidableEq

/-- The escrow service's mutable state: its transactions dict, its disputes
dict (keyed by transaction id), and which user ids the user service's
database holds (`UserService.get_user` returns None for the others). -/
structure EscrowState where
  transactions : String → Option Transaction
  disputes : String → Option EsDispute
  registered : Int → Bool

/-- A state whose transactions dict maps each key to a transaction carrying
that key as its id — the invariant `self.transactions[transaction.id] =
transaction` keeps. -/
def EscrowState.KeyedById (s : EscrowState) : Prop :=
  ∀ i t, s.transactions i = some t → t.id = i

/-- `EscrowService.update_transaction` (src/services/escrow_service.py lines
66-95).  Stores the transaction with a fresh `updated_at`.  When the stored
transaction has a truthy `buyer_id`, the source then evaluates
`get_user(buyer_id).transactions`; for a buyer id missing from the user
database `get_user` returns None, the attribute access raises, and the
blanket `except` returns False — after the dict already holds the updated
transaction.  For a registered buyer the freshly built user model's
`transactions` list is empty, so `add_transaction_to_user` runs (a pure
existence check, no state change) and True is returned.
`storeTransaction` is the state after the dict assignment
`self.transactions[transaction.id] = transaction` with the fresh
`updated_at`. -/
def storeTransaction (s : EscrowState) (t : Transaction) (now : ℚ) : EscrowState :=
  { s with transactions := fun i =>
      if i = t.id then some { t with updated_at := some now } else s.transactions i }

/-- `EscrowService.update_transaction`, see `storeTransaction`'s comment. -/
def updateTransaction (s : EscrowState) (t : Transaction) (now : ℚ) : Bool × EscrowState :=
  match s.transactions t.id with
  | none => (false, s)
  | some _ =>
    let s' := storeTransaction s t now
    match t.buyer_id with
    | none => (true, s')
    | some b => if b ≠ 0 then (s.registered b, s') else (true, s')

/-- `EscrowService.create_transaction` (lines 27-52): refuses an id already
present, otherwise stores the transaction (`add_transaction_to_user` only
checks that the seller exists and changes nothing). -/
def createTransaction (s : EscrowState) (t : Transaction) : Bool × EscrowState :=
  if (s.transactions t.id).isSome then (false, s)
  else (true, { s with transactions := fun i => if i = t.id then some t else s.transactions i })

/-- `EscrowService.cancel_transaction` (lines 117-150). -/
def cancelTransaction (s : EscrowState) (tid : String) (uid : Int) (now : ℚ) :
    Bool × EscrowState :=
  match s.transactions tid with
  | none => (false, s)
  | some t =>
    if uid ≠ t.seller_id ∧ t.buyer_id ≠ some uid then (false, s)
    else if t.status ≠ "created" then (false, s)
    else updateTransaction s { t with status := "cancelled", updated_at := some now } now

/-- `EscrowService.confirm_transaction` (lines 151-182): the seller confirms
receipt of payment; requires the caller to be the seller and the status to be
"funded", then mutates the transaction and returns what
`update_transaction` returns. -/
def confirmTransaction (s : EscrowState) (tid : String) (uid : Int) (now : ℚ) :
    Bool × EscrowState :=
  match s.transactions tid with
  | none => (false, s)
  | some t =>
    if uid ≠ t.seller_id then (false, s)
    else if t.status ≠ "funded" then (false, s)
    else updateTransaction s { t with status := "confirmed", updated_at := some now } now

/-- `EscrowService.complete_transaction` (lines 185-222). -/
def completeTransaction (s : EscrowState) (tid : String) (uid : Int) (now : ℚ) :
    Bool × EscrowState :=
  match s.transactions tid with
  | none => (false, s)
  | some t =>
    if t.buyer_id ≠ some uid then (false, s)
    else if t.status ≠ "confirmed" then (false, s)
    else
      updateTransaction s
        { t with status := "completed", updated_at := some now, completed_at := some now } now

/-- `EscrowService.open_dispute` (lines 238-298).  Guards in source order:
transaction exists; caller is its seller or buyer; status is funded or
confirmed; no dispute record exists yet for this transaction.  On success it
stores an open dispute, marks the transaction disputed and returns True
(ignoring `update_transaction`'s return value). -/
def openDisputeEs (s : EscrowState) (tid : String) (uid : Int) (reason ev : String) (now : ℚ) :
    Bool × EscrowState :=
  match s.transactions tid with
  | none => (false, s)
  | some t =>
    if uid ≠ t.seller_id ∧ t.buyer_id ≠ some uid then (false, s)
    else if t.status ≠ "funded" ∧ t.status ≠ "confirmed" then (false, s)
    else if (s.disputes tid).isSome then (false, s)
    else
      let role := if uid = t.seller_id then "seller" else "buyer"
      let d : EsDispute :=
        { transaction_id := tid, opened_by := role, reason := reason, evidence := ev,
          response := none, status := "open", resolution := none,
          opened_at := now, resolved_at := none }
      let s1 := { s with disputes := fun i => if i = tid then some d else s.disputes i }
      let t' := { t with status := "disputed", updated_at := some now,
                         dispute := some ("open", none) }
      (true, (updateTransaction s1 t' now).2)

/-- `EscrowService.resolve_dispute` (lines 312-357).  Requires the transaction
and the dispute to exist and the dispute to be open; resolution "buyer" and
any string other than "seller" refund the transaction, "seller" completes it
with `completed_at` set.  Returns True on success regardless of
`update_transaction`'s return value. -/
def resolveDisputeEs (s : EscrowState) (tid : String) (resolution : String) (now : ℚ) :
    Bool × EscrowState :=
  match s.transactions tid, s.disputes tid with
  | some t, some d =>
    if d.status ≠ "open" then (false, s)
    else
      let d' := { d with status := "resolved", resolution := some resolution,
                         resolved_at := some now }
      let t1 :=
        if resolution = "buyer" then { t with status := "refunded" }
        else if resolution = "seller" then
          { t with status := "completed", completed_at := some now }
        else { t with status := "refunded" }
      let t' := { t1 with updated_at := some now, dispute := some ("resolved", some resolution) }
      let s1 := { s with disputes := fun i => if i = tid then some d' else s.disputes i }
      (true, (updateTransaction s1 t' now).2)
  | _, _ => (false, s)

/-- `TRANSACTION_FEE_PERCENTAGE = 2.5` (src/config.py line 12). -/
def TRANSACTION_FEE_PERCENTAGE : ℚ := 5 / 2

/-- The fee the transaction creation flow computes
(src/handlers/transaction_handlers.py line 304):
`fee = amount * (TRANSACTION_FEE_PERCENTAGE / 100)` — no rounding. -/
def flowFee (amount : ℚ) : ℚ :=
  amount * (TRANSACTION_FEE_PERCENTAGE / 100)

/-- The transaction object the creation flow builds
(src/handlers/transaction_handlers.py lines 496-506): amount and the computed
fee, status "created", no buyer yet. -/
def makeFlowTransaction (tid title desc : String) (amount : ℚ) (pm : String)
    (seller : Int) (suname : String) (now : ℚ) : Transaction :=
  { id := tid, title := title, description := desc, amount := amount,
    fee := flowFee amount, payment_method := pm, seller_id := seller,
    seller_username := suname, buyer_id := none, buyer_username := none,
    status := "created", created_at := now, updated_at := none,
    completed_at := none, dispute := none }

/-- The `(amount, fee)` pair stored for a transaction id, the projection the
fee invariant is about. -/
def amountFeeAt (s : EscrowState) (i : String) : Option (ℚ × ℚ) :=
  (s.transactions i).map (fun t => (t.amount, t.fee))

/-- The rounding the specification's fee invariant asserts: Python's
`round(x, 2)` to two decimal places, written with round-half-up (the
counterexample below is tie-free, where Python's half-to-even agrees that the
result is a multiple of 1/100). -/
def round2 (x : ℚ) : ℚ :=
  (round (x * 100) : ℤ) / 100

/-! ## Dispute resolution subsystem (src/dispute_system.py) -/

/-- A dispute case row (src/dispute_system.py, class Dispute).  Fields no
modelled operation branches on or mutates (parties, usernames, trade title,
reason, evidence, amount, currency, extra data) are omitted; `priority` is the
String(10) column whose SQL ordering is lexicographic. -/
structure Dispute where
  id : String
  transaction_id : String
  dispute_type : String
  status : String
  priority : String
  created_at : ℚ
  last_updated : ℚ
  resolved_at : Option ℚ
  resolution_type : Option String
  resolution_notes : Option String
  moderator_decision : Option String
  assigned_moderator : Option String
  deriving Repr, DecidableEq

/-- A moderator row (src/dispute_system.py, class Moderator), restricted to
the fields `resolve_dispute` reads or writes. -/
structure Moderator where
  id : String
  current_case_load : ℤ
  cases_resolved : ℕ
  average_resolution_time : ℚ
  deriving Repr, DecidableEq

/-- The dispute system's database state: dispute rows by id, moderator rows
by id, and the append-only dispute-message log as (dispute_id, content)
pairs. -/
structure DisputeState where
  disputes : String → Option Dispute
  moderators : String → Option Moderator
  messages : List (String × String)

/-- `DisputeSystem._calculate_priority` (src/dispute_system.py lines 216-225). -/
def calculatePriority (amount : ℚ) (dispute_type : String) : String :=
  if 1 / 10 ≤ amount then "urgent"
  else if 1 / 20 ≤ amount then "high"
  else if dispute_type = "payment_not_received" ∨ dispute_type = "service_not_delivered" then
    "high"
  else "normal"

/-- The moderator-statistics block of `DisputeSystem.resolve_dispute`
(src/dispute_system.py lines 305-318): decrement the case load, increment
`cases_resolved`, and fold the resolution time (in hours) into the running
mean with `n = cases_resolved` after the increment. -/
def updateModeratorStats (m : Moderator) (resolution_hours : ℚ) : Moderator :=
  let resolved := m.cases_resolved + 1
  { m with
    current_case_load := m.current_case_load - 1
    cases_resolved := resolved
    average_resolution_time :=
      if resolved = 1 then resolution_hours
      else (m.average_resolution_time * ((resolved : ℚ) - 1) + resolution_hours) / (resolved : ℚ) }

/-- `DisputeSystem.resolve_dispute` (src/dispute_system.py lines 285-323).
Returns None when the dispute id is unknown.  Otherwise it marks the dispute
resolved and stores the resolution fields, appends a system message (which
also touches `last_updated`), and — when the named moderator exists — updates
that moderator's statistics with the resolution time
`(resolved_at - created_at)` in hours.  Neither the dispute's previous status
nor the moderator assignment is checked. -/
def resolveDispute (s : DisputeState) (dispute_id moderator_id : String)
    (resolution_type resolution_notes moderator_decision : String) (now : ℚ) :
    Option Dispute × DisputeState :=
  match s.disputes dispute_id with
  | none => (none, s)
  | some d =>
    let d' := { d with
      status := "resolved"
      resolved_at := some now
      resolution_type := some resolution_type
      resolution_notes := some resolution_notes
      moderator_decision := some moderator_decision
      last_updated := now }
    let s1 := { s with
      disputes := fun i => if i = dispute_id then some d' else s.disputes i
      messages := s.messages ++
        [(dispute_id, "Dispute resolved by moderator. Resolution: " ++ resolution_type)] }
    let s2 :=
      match s1.moderators moderator_id with
      | none => s1
      | some m =>
        { s1 with moderators := fun i =>
            if i = moderator_id then
              some (updateModeratorStats m ((now - d.created_at) / 3600))
            else s1.moderators i }
    (some d', s2)

/-- The status filter of `DisputeSystem.get_active_disputes`
(src/dispute_system.py lines 347-351). -/
def activeStatuses : List String :=
  ["open", "investigating", "awaiting_response"]

/-- The SQL sort key of `get_active_disputes`: `ORDER BY priority DESC,
created_at ASC`.  `priority` is a string column, so the descending comparison
is lexicographic on the strings. -/
def sqlBefore (a b : Dispute) : Bool :=
  if a.priority = b.priority then decide (a.created_at ≤ b.created_at)
  else decide (b.priority < a.priority)

/-- Insertion step of a sort by `sqlBefore`. -/
def insertByOrder (x : Dispute) : List Dispute → List Dispute
  | [] => [x]
  | y :: ys => if sqlBefore x y then x :: y :: ys else y :: insertByOrder x ys

/-- Sort by `sqlBefore` (insertion sort; the SQL key is total on the rows the
theorems below use, so stability does not matter there). -/
def sortDisputes : List Dispute → List Dispute
  | [] => []
  | x :: xs => insertByOrder x (sortDisputes xs)

/-- `DisputeSystem.get_active_disputes` (src/dispute_system.py lines
347-351): the disputes with status in `activeStatuses`, ordered by
`priority DESC, created_at ASC` with the string-typed priority column. -/
def getActiveDisputes (ds : List Dispute) : List Dispute :=
  sortDisputes (ds.filter (fun d => activeStatuses.contains d.status))

/-! ## Trust scoring engine (src/trust_system.py) -/

/-- A user profile (src/trust_system.py, class UserProfile), restricted to
the fields the trust score and badge rules read.  `days_since_join` stands
for `(datetime.now() - join_date).days` of a past join date. -/
structure UserProfile where
  total_trades : ℕ
  successful_trades : ℕ
  positive_feedback : ℕ
  neutral_feedback : ℕ
  negative_feedback : ℕ
  phone_verified : Bool
  email_verified : Bool
  id_verified : Bool
  days_since_join : ℕ
  response_time_avg : ℚ
  deriving Repr, DecidableEq

/-- `TrustSystem.calculate_trust_score` (src/trust_system.py lines 228-281)
as the guarded sum the sequential `score += ...` statements compute: base 50;
the trade term only when `total_trades > 0`; the feedback term only when the
feedback total is positive; flat verification bonuses; the activity term only
when `days_active > 0`; the response-time term only when
`response_time_avg > 0`; finally capped at 100. -/
def calculateTrustScore (u : UserProfile) : ℚ :=
  min
    (50
      + (if 0 < u.total_trades then
          ((u.successful_trades : ℚ) / (u.total_trades : ℚ)) * 30 else 0)
      + (if 0 < u.positive_feedback + u.neutral_feedback + u.negative_feedback then
          ((u.positive_feedback : ℚ) /
            ((u.positive_feedback + u.neutral_feedback + u.negative_feedback : ℕ) : ℚ)) * 25
        else 0)
      + ((if u.phone_verified then 7 else 0) + (if u.email_verified then 7 else 0)
          + (if u.id_verified then 6 else 0))
      + (if 0 < u.days_since_join then min ((u.days_since_join : ℚ) / 30) 1 * 15 else 0)
      + (if 0 < u.response_time_avg then max 0 (10 - u.response_time_avg / 2) else 0))
    100

/-- `TrustSystem._get_trust_level` (src/trust_system.py lines 283-296), with
the `TrustLevel` enum values as strings. -/
def getTrustLevel (score : ℚ) : String :=
  if 90 ≤ score then "diamond"
  else if 80 ≤ score then "platinum"
  else if 70 ≤ score then "gold"
  else if 60 ≤ score then "silver"
  else if 50 ≤ score then "bronze"
  else "unverified"

/-- What `calculate_trust_score` returns and stores for an existing user:
the computed score and the trust level derived from it. -/
def calculateTrust (u : UserProfile) : ℚ × String :=
  (calculateTrustScore u, getTrustLevel (calculateTrustScore u))

/-- The score formula exactly as the claim words it: every term of
`calculateTrustScore` but with the response-time term added unconditionally,
and the final score clamped to [0, 100]. -/
def claimedTrustScore (u : UserProfile) : ℚ :=
  max 0 (min 100
    (50
      + (if 0 < u.total_trades then
          ((u.successful_trades : ℚ) / (u.total_trades : ℚ)) * 30 else 0)
      + (if 0 < u.positive_feedback + u.neutral_feedback + u.negative_feedback then
          ((u.positive_feedback : ℚ) /
            ((u.positive_feedback + u.neutral_feedback + u.negative_feedback : ℕ) : ℚ)) * 25
        else 0)
      + ((if u.phone_verified then 7 else 0) + (if u.email_verified then 7 else 0)
          + (if u.id_verified then 6 else 0))
      + min ((u.days_since_join : ℚ) / 30) 1 * 15
      + max 0 (10 - u.response_time_avg / 2)))

/-- The claim's score formula amended no more than the counterexample forces:
the response-time credit `max(0, 10 - response_time_avg/2)` is only added
when `response_time_avg > 0` (the source's guard); everything else — the
other terms and the clamp to [0, 100] — is as the claim words it. -/
def amendedTrustScore (u : UserProfile) : ℚ :=
  max 0 (min 100
    (50
      + (if 0 < u.total_trades then
          ((u.successful_trades : ℚ) / (u.total_trades : ℚ)) * 30 else 0)
      + (if 0 < u.positive_feedback + u.neutral_feedback + u.negative_feedback then
          ((u.positive_feedback : ℚ) /
            ((u.positive_feedback + u.neutral_feedback + u.negative_feedback : ℕ) : ℚ)) * 25
        else 0)
      + ((if u.phone_verified then 7 else 0) + (if u.email_verified then 7 else 0)
          + (if u.id_verified then 6 else 0))
      + min ((u.days_since_join : ℚ) / 30) 1 * 15
      + (if 0 < u.response_time_avg then max 0 (10 - u.response_time_avg / 2) else 0)))

/-- The tier mapping exactly as the claim words it: diamond at 90, platinum
at 80, gold at 70, silver at 60, bronze at 50, unverified below. -/
def claimedTrustLevel (score : ℚ) : String :=
  if 90 ≤ score then "diamond"
  else if 80 ≤ score then "platinum"
  else if 70 ≤ score then "gold"
  else if 60 ≤ score then "silver"
  else if 50 ≤ score then "bronze"
  else "unverified"

/-- A badge rule: badge name and the decidable condition on the profile. -/
abbrev BadgeRule := String × (UserProfile → Bool)

/-- The fixed rule table of `TrustSystem._check_badges` (src/trust_system.py
lines 426-433): trade-count thresholds, the response-time window, full
verification, and the 95% positive-feedback quality threshold (the source
divides by `max(total_feedback, 1)`). -/
def badgeRules : List BadgeRule :=
  [("First Timer", fun u => decide (1 ≤ u.total_trades)),
   ("Trusted Trader", fun u => decide (10 ≤ u.total_trades)),
   ("Elite Trader", fun u => decide (50 ≤ u.total_trades)),
   ("Fast Responder", fun u => decide (0 < u.response_time_avg ∧ u.response_time_avg < 2)),
   ("Verified Pro", fun u => u.phone_verified && u.email_verified && u.id_verified),
   ("Customer Champion", fun u =>
     decide ((95 : ℚ) / 100 ≤ (u.positive_feedback : ℚ) /
       ((max (u.positive_feedback + u.neutral_feedback + u.negative_feedback) 1 : ℕ) : ℚ)))]

/-- The awarding loop of `_check_badges` (src/trust_system.py lines 435-448)
over an arbitrary rule list: for each rule whose condition holds, whose badge
type exists (`types` holds the names in the BadgeType table, unique by the
initialisation's existence check), and for which the user holds no badge row
yet, append one badge row.  Badge rows for one user are the held badge
names. -/
def checkBadgesFold (u : UserProfile) (types : List String) :
    List BadgeRule → List String → List String
  | [], badges => badges
  | r :: rest, badges =>
    checkBadgesFold u types rest
      (if r.2 u ∧ r.1 ∈ types ∧ r.1 ∉ badges then badges ++ [r.1] else badges)

/-- `TrustSystem._check_badges` for one user: the awarding loop over the
fixed rule table. -/
def checkBadges (u : UserProfile) (types badges : List String) : List String :=
  checkBadgesFold u types badgeRules badges

/-! ## Concrete sample records used in closed statements -/

/-- A funded transaction between seller 1 and buyer 2. -/
def tFundedBug : Transaction :=
  { id := "T1", title := "phone", description := "used phone", amount := 100,
    fee := 5 / 2, payment_method := "paypal", seller_id := 1, seller_username := "alice",
    buyer_id := some 2, buyer_username := some "bob", status := "funded",
    created_at := 0, updated_at := none, completed_at := none, dispute := none }

/-- A service state holding only `tFundedBug`, whose buyer (id 2) is missing
from the user service's database. -/
def sBug : EscrowState :=
  { transactions := fun i => if i = "T1" then some tFundedBug else none,
    disputes := fun _ => none,
    registered := fun _ => false }

/-- The same state with every user id present in the user database. -/
def sBugReg : EscrowState :=
  { sBug with registered := fun _ => true }

/-- A disputed transaction for the escrow dispute-resolution witness. -/
def tW2 : Transaction :=
  { id := "T1", title := "gpu", description := "graphics card", amount := 40,
    fee := 1, payment_method := "bitcoin", seller_id := 1, seller_username := "alice",
    buyer_id := some 2, buyer_username := some "bob", status := "disputed",
    created_at := 0, updated_at := some 1, completed_at := none,
    dispute := some ("open", none) }

/-- The open dispute record for `tW2`. -/
def dW2 : EsDispute :=
  { transaction_id := "T1", opened_by := "buyer", reason := "not delivered",
    evidence := "chat log", response := none, status := "open",
    resolution := none, opened_at := 1, resolved_at := none }

/-- State for the escrow dispute-resolution witness. -/
def sW2 : EscrowState :=
  { transactions := fun i => if i = "T1" then some tW2 else none,
    disputes := fun i => if i = "T1" then some dW2 else none,
    registered := fun _ => true }

/-- A funded transaction with no dispute yet, for the open-dispute witness. -/
def tW8 : Transaction :=
  { id := "T1", title := "gpu", description := "graphics card", amount := 40,
    fee := 1, payment_method := "bitcoin", seller_id := 1, seller_username := "alice",
    buyer_id := some 2, buyer_username := some "bob", status := "funded",
    created_at := 0, updated_at := some 1, completed_at := none, dispute := none }

/-- State for the open-dispute witness. -/
def sW8 : EscrowState :=
  { transactions := fun i => if i = "T1" then some tW8 else none,
    disputes := fun _ => none,
    registered := fun _ => true }

/-- An active high-priority dispute, created first. -/
def dHighC5 : Dispute :=
  { id := "D1", transaction_id := "T1", dispute_type := "quality_issue",
    status := "open", priority := "high", created_at := 0, last_updated := 0,
    resolved_at := none, resolution_type := none, resolution_notes := none,
    moderator_decision := none, assigned_moderator := some "001" }

/-- An active normal-priority dispute, created later. -/
def dNormalC5 : Dispute :=
  { id := "D2", transaction_id := "T2", dispute_type := "other",
    status := "open", priority := "normal", created_at := 1, last_updated := 1,
    resolved_at := none, resolution_type := none, resolution_notes := none,
    moderator_decision := none, assigned_moderator := some "002" }

/-- A resolved dispute, filtered out of the active queue. -/
def dResolvedC5 : Dispute :=
  { id := "D3", transaction_id := "T3", dispute_type := "other",
    status := "resolved", priority := "urgent", created_at := 0, last_updated := 2,
    resolved_at := some 2, resolution_type := some "refund_buyer",
    resolution_notes := some "done", moderator_decision := some "refund",
    assigned_moderator := some "001" }

/-- An already-resolved dispute row, to exercise a second resolution call. -/
def dC10 : Dispute :=
  { id := "D1", transaction_id := "T1", dispute_type := "quality_issue",
    status := "resolved", priority := "normal", created_at := 0, last_updated := 4,
    resolved_at := some 4, resolution_type := some "refund_buyer",
    resolution_notes := some "done", moderator_decision := some "refund",
    assigned_moderator := some "001" }

/-- A moderator with an empty case load. -/
def mC10 : Moderator :=
  { id := "M1", current_case_load := 0, cases_resolved := 1,
    average_resolution_time := 4 }

/-- Dispute-system state holding `dC10` and `mC10`. -/
def sC10 : DisputeState :=
  { disputes := fun i => if i = "D1" then some dC10 else none,
    moderators := fun i => if i = "M1" then some mC10 else none,
    messages := [] }

/-- The all-zero, unverified, just-joined profile. -/
def uZero : UserProfile :=
  { total_trades := 0, successful_trades := 0, positive_feedback := 0,
    neutral_feedback := 0, negative_feedback := 0, phone_verified := false,
    email_verified := false, id_verified := false, days_since_join := 0,
    response_time_avg := 0 }

/-! ## Theorems -/

/-- Clamping from above only agrees with the two-sided clamp on nonnegative
scores. -/
lemma min_clamp_eq {x : ℚ} (hx : 0 ≤ x) : min x 100 = max 0 (min 100 x) := by
  rw [min_comm]
  exact (max_eq_right (le_min (by norm_num) hx)).symm

/-- C4, at the claim's own boundary instance: an amount of 0.0999 satisfies
the second threshold (0.0999 ≥ 0.05), so the code returns "high" for it even
with a dispute_type outside the two listed types — not "normal" as the claim
asserts. -/
theorem priority_boundary_counterexample :
    calculatePriority (999 / 10000) "quality_issue" = "high"
    ∧ calculatePriority (999 / 10000) "quality_issue" ≠ "normal" := by
  have h : calculatePriority (999 / 10000) "quality_issue" = "high" := by
    unfold calculatePriority
    rw [if_neg (by norm_num), if_pos (by norm_num)]
  refine ⟨h, ?_⟩
  rw [h]
  simp

/-- C4, amended: dispute priority is urgent from amount 0.1, otherwise high
from 0.05, otherwise high for the two listed dispute types, else normal.
Amount exactly 0.1 is urgent; amount 0.0999 is high for every dispute_type
(it clears the 0.05 threshold); an amount below 0.05 such as 0.0099 with a
dispute_type outside the two listed types is normal; and amount 0.01 with
type service_not_delivered is high. -/
theorem dispute_priority_amended (a : ℚ) (ty : String) :
    calculatePriority a ty =
      (if 1 / 10 ≤ a then "urgent"
       else if 1 / 20 ≤ a then "high"
       else if ty = "payment_not_received" ∨ ty = "service_not_delivered" then "high"
       else "normal")
    ∧ calculatePriority (1 / 10) ty = "urgent"
    ∧ calculatePriority (999 / 10000) ty = "high"
    ∧ calculatePriority (99 / 10000) "quality_issue" = "normal"
    ∧ calculatePriority (1 / 100) "service_not_delivered" = "high" := by
  refine ⟨rfl, ?_, ?_, ?_, ?_⟩
  · unfold calculatePriority
    rw [if_pos le_rfl]
  · unfold calculatePriority
    rw [if_neg (by norm_num), if_pos (by norm_num)]
  · unfold calculatePriority
    rw [if_neg (by norm_num), if_neg (by norm_num), if_neg (by simp)]
  · unfold calculatePriority
    rw [if_neg (by norm_num), if_neg (by norm_num), if_pos (Or.inr rfl)]

/-- C5, at the failing input: two active disputes, the high-priority one
created first, plus one resolved dispute.  `get_active_disputes` drops the
resolved one but returns the normal-priority dispute BEFORE the
high-priority one, because the SQL `ORDER BY priority DESC` compares the
priority strings lexicographically and "normal" > "high". -/
theorem active_disputes_order_bug :
    getActiveDisputes [dHighC5, dNormalC5, dResolvedC5] = [dNormalC5, dHighC5]
    ∧ dHighC5.priority = "high"
    ∧ dNormalC5.priority = "normal"
    ∧ dHighC5.created_at < dNormalC5.created_at := by
  have h1 : ¬ (("normal" : String) < "high") := by
    simp
    decide
  refine ⟨?_, rfl, rfl, by norm_num [dHighC5, dNormalC5]⟩
  simp [getActiveDisputes, activeStatuses, dHighC5, dNormalC5, dResolvedC5,
    sortDisputes, insertByOrder, sqlBefore, h1, List.filter]

/-- C1, at a concrete profile: for the all-zero profile the code returns
score 50 and stores level "bronze", while the claim's formula (which adds the
response-time credit unconditionally) yields 60 and level "silver". -/
theorem trust_score_claim_counterexample :
    calculateTrust uZero = (50, "bronze")
    ∧ claimedTrustScore uZero = 60
    ∧ claimedTrustLevel (claimedTrustScore uZero) = "silver"
    ∧ calculateTrustScore uZero ≠ claimedTrustScore uZero := by
  have hcode : calculateTrustScore uZero = 50 := by
    norm_num [calculateTrustScore, uZero, min_def]
  have hclaim : claimedTrustScore uZero = 60 := by
    norm_num [claimedTrustScore, uZero, min_def, max_def]
  refine ⟨?_, hclaim, ?_, ?_⟩
  · unfold calculateTrust
    rw [hcode]
    norm_num [getTrustLevel]
  · rw [hclaim]
    norm_num [claimedTrustLevel]
  · rw [hcode, hclaim]
    norm_num

/-- C1, amended: for every profile, `calculate_trust_score` returns exactly
the claim's clamped sum with the response-time term restricted to
`response_time_avg > 0`, and stores the trust level given by the claim's tier
thresholds applied to that score. -/
theorem trust_score_amended (u : UserProfile) :
    calculateTrust u = (amendedTrustScore u, claimedTrustLevel (amendedTrustScore u)) := by
  have hdays :
      (if 0 < u.days_since_join then min ((u.days_since_join : ℚ) / 30) 1 * 15 else 0)
        = min ((u.days_since_join : ℚ) / 30) 1 * 15 := by
    rcases Nat.eq_zero_or_pos u.days_since_join with h | h
    · rw [if_neg (by omega), h]
      norm_num [min_def]
    · rw [if_pos h]
  have hscore : calculateTrustScore u = amendedTrustScore u := by
    unfold calculateTrustScore amendedTrustScore
    rw [hdays]
    apply min_clamp_eq
    refine add_nonneg (add_nonneg (add_nonneg (add_nonneg (add_nonneg
      (by norm_num) ?_) ?_) ?_) ?_) ?_
    · split_ifs <;> positivity
    · split_ifs <;> positivity
    · split_ifs <;> norm_num
    · exact mul_nonneg (le_min (by positivity) (by norm_num)) (by norm_num)
    · split_ifs with h
      · exact le_max_left 0 _
      · exact le_refl 0
  unfold calculateTrust
  rw [hscore]
  rfl

/-- Folding the moderator-statistics update keeps `cases_resolved`,
`current_case_load` and the running mean in closed form. -/
lemma foldl_updateModeratorStats (ds : List ℚ) :
    ∀ (m : Moderator) (s : ℚ),
      m.average_resolution_time = s / (m.cases_resolved : ℚ) →
      (m.cases_resolved = 0 → s = 0) →
      ((ds.foldl updateModeratorStats m).cases_resolved = m.cases_resolved + ds.length
        ∧ (ds.foldl updateModeratorStats m).current_case_load
            = m.current_case_load - (ds.length : ℤ)
        ∧ (ds.foldl updateModeratorStats m).average_resolution_time
            = (s + ds.sum) / ((m.cases_resolved : ℚ) + (ds.length : ℚ))) := by
  induction ds with
  | nil =>
    intro m s havg _
    refine ⟨by simp, by simp, ?_⟩
    simpa using havg
  | cons d rest ih =>
    intro m s havg h0
    have havg' : (updateModeratorStats m d).average_resolution_time
        = (s + d) / (((updateModeratorStats m d).cases_resolved : ℕ) : ℚ) := by
      rcases Nat.eq_zero_or_pos m.cases_resolved with hz | hp
      · have hs0 := h0 hz
        simp [updateModeratorStats, hz, hs0]
      · have hne : m.cases_resolved + 1 ≠ 1 := by omega
        have hne2 : ((m.cases_resolved : ℚ)) ≠ 0 := Nat.cast_ne_zero.mpr (by omega)
        simp only [updateModeratorStats, if_neg hne]
        rw [havg]
        have h1 : ((m.cases_resolved + 1 : ℕ) : ℚ) - 1 = (m.cases_resolved : ℚ) := by
          push_cast
          ring
        rw [h1]
        congr 1
        rw [div_mul_cancel₀ _ hne2]
    have hmain := ih (updateModeratorStats m d) (s + d) havg'
      (fun h => absurd h (by simp [updateModeratorStats]))
    simp only [List.foldl_cons]
    refine ⟨?_, ?_, ?_⟩
    · rw [hmain.1]
      simp only [updateModeratorStats, List.length_cons]
      omega
    · rw [hmain.2.1]
      simp only [updateModeratorStats, List.length_cons]
      push_cast
      ring
    · rw [hmain.2.2]
      simp only [updateModeratorStats, List.sum_cons, List.length_cons]
      push_cast
      ring_nf

/-- C7: starting from `cases_resolved = 0` and `average_resolution_time = 0`,
sequentially resolving disputes with resolution durations `ds` (hours) leaves
the moderator's `cases_resolved` at the number of resolutions, the case load
decremented once per resolution, and the running mean equal to the mean of
the durations; in particular durations 2h, 4h, 6h give an average of 4. -/
theorem moderator_running_mean (mid : String) (l : ℤ) (ds : List ℚ) :
    ((ds.foldl updateModeratorStats ⟨mid, l, 0, 0⟩).cases_resolved = ds.length)
    ∧ ((ds.foldl updateModeratorStats ⟨mid, l, 0, 0⟩).current_case_load
        = l - (ds.length : ℤ))
    ∧ ((ds.foldl updateModeratorStats ⟨mid, l, 0, 0⟩).average_resolution_time
        = ds.sum / (ds.length : ℚ))
    ∧ (([2, 4, 6] : List ℚ).foldl updateModeratorStats ⟨mid, l, 0, 0⟩).average_resolution_time
        = 4 := by
  have h := foldl_updateModeratorStats ds ⟨mid, l, 0, 0⟩ 0 (by simp) (fun _ => rfl)
  have h2 := foldl_updateModeratorStats ([2, 4, 6] : List ℚ) ⟨mid, l, 0, 0⟩ 0
    (by simp) (fun _ => rfl)
  refine ⟨by simpa using h.1, by simpa using h.2.1, by simpa using h.2.2, ?_⟩
  rw [h2.2.2]
  norm_num

/-- `update_transaction` on a stored id: the state after the call holds the
transaction (with fresh `updated_at`) under its id, whatever the return
value. -/
lemma updateTransaction_snd_some {s : EscrowState} {t0 : Transaction} (t : Transaction)
    (now : ℚ) (h : s.transactions t.id = some t0) :
    (updateTransaction s t now).2 = storeTransaction s t now := by
  unfold updateTransaction
  rw [h]
  cases t.buyer_id with
  | none => rfl
  | some b =>
    by_cases hb : b ≠ 0
    · simp only [if_pos hb]
    · simp only [if_neg hb]

/-- `update_transaction` on a missing id changes nothing. -/
lemma updateTransaction_snd_none {s : EscrowState} (t : Transaction) (now : ℚ)
    (h : s.transactions t.id = none) :
    (updateTransaction s t now).2 = s := by
  unfold updateTransaction
  rw [h]

/-- Storing back a transaction with unchanged amount and fee preserves the
`(amount, fee)` projection at every id. -/
lemma amountFeeAt_update (t0 : Transaction) {s : EscrowState} (t : Transaction) (now : ℚ)
    (h : s.transactions t.id = some t0) (ha : t.amount = t0.amount) (hf : t.fee = t0.fee)
    (i : String) :
    amountFeeAt (updateTransaction s t now).2 i = amountFeeAt s i := by
  rw [amountFeeAt, amountFeeAt, updateTransaction_snd_some t now h, storeTransaction]
  by_cases hi : i = t.id
  · subst hi
    rw [h]
    simp [ha, hf]
  · simp [hi]

/-- `confirm_transaction` never changes any stored amount or fee. -/
lemma amountFeeAt_confirm (s : EscrowState) (hkey : s.KeyedById) (tid : String) (uid : Int)
    (now : ℚ) (i : String) :
    amountFeeAt (confirmTransaction s tid uid now).2 i = amountFeeAt s i := by
  rcases ht : s.transactions tid with _ | t <;> simp only [confirmTransaction, ht]
  split_ifs
  · rfl
  · rfl
  · have hid : t.id = tid := hkey tid t ht
    refine amountFeeAt_update t _ now ?_ ?_ ?_ i
    · show s.transactions t.id = some t
      rw [hid]
      exact ht
    · rfl
    · rfl

/-- `complete_transaction` never changes any stored amount or fee. -/
lemma amountFeeAt_complete (s : EscrowState) (hkey : s.KeyedById) (tid : String) (uid : Int)
    (now : ℚ) (i : String) :
    amountFeeAt (completeTransaction s tid uid now).2 i = amountFeeAt s i := by
  rcases ht : s.transactions tid with _ | t <;> simp only [completeTransaction, ht]
  split_ifs
  · rfl
  · rfl
  · have hid : t.id = tid := hkey tid t ht
    refine amountFeeAt_update t _ now ?_ ?_ ?_ i
    · show s.transactions t.id = some t
      rw [hid]
      exact ht
    · rfl
    · rfl

/-- `cancel_transaction` never changes any stored amount or fee. -/
lemma amountFeeAt_cancel (s : EscrowState) (hkey : s.KeyedById) (tid : String) (uid : Int)
    (now : ℚ) (i : String) :
    amountFeeAt (cancelTransaction s tid uid now).2 i = amountFeeAt s i := by
  rcases ht : s.transactions tid with _ | t <;> simp only [cancelTransaction, ht]
  split_ifs
  · rfl
  · rfl
  · have hid : t.id = tid := hkey tid t ht
    refine amountFeeAt_update t _ now ?_ ?_ ?_ i
    · show s.transactions t.id = some t
      rw [hid]
      exact ht
    · rfl
    · rfl

/-- `open_dispute` never changes any stored amount or fee. -/
lemma amountFeeAt_openDispute (s : EscrowState) (hkey : s.KeyedById) (tid : String)
    (uid : Int) (reason ev : String) (now : ℚ) (i : String) :
    amountFeeAt (openDisputeEs s tid uid reason ev now).2 i = amountFeeAt s i := by
  rcases ht : s.transactions tid with _ | t <;> simp only [openDisputeEs, ht]
  split_ifs
  · rfl
  · rfl
  · rfl
  · have hid : t.id = tid := hkey tid t ht
    refine amountFeeAt_update t _ now ?_ ?_ ?_ i
    · show s.transactions t.id = some t
      rw [hid]
      exact ht
    · rfl
    · rfl
  · have hid : t.id = tid := hkey tid t ht
    refine amountFeeAt_update t _ now ?_ ?_ ?_ i
    · show s.transactions t.id = some t
      rw [hid]
      exact ht
    · rfl
    · rfl

/-- The escrow service's `resolve_dispute` never changes any stored amount or
fee. -/
lemma amountFeeAt_resolveDispute (s : EscrowState) (hkey : s.KeyedById) (tid r : String)
    (now : ℚ) (i : String) :
    amountFeeAt (resolveDisputeEs s tid r now).2 i = amountFeeAt s i := by
  rcases ht : s.transactions tid with _ | t <;>
    rcases hd : s.disputes tid with _ | d <;>
      simp only [resolveDisputeEs, ht, hd]
  split_ifs
  · rfl
  · have hid : t.id = tid := hkey tid t ht
    refine amountFeeAt_update t _ now ?_ ?_ ?_ i
    · show s.transactions t.id = some t
      rw [hid]
      exact ht
    · rfl
    · rfl
  · have hid : t.id = tid := hkey tid t ht
    refine amountFeeAt_update t _ now ?_ ?_ ?_ i
    · show s.transactions t.id = some t
      rw [hid]
      exact ht
    · rfl
    · rfl
  · have hid : t.id = tid := hkey tid t ht
    refine amountFeeAt_update t _ now ?_ ?_ ?_ i
    · show s.transactions t.id = some t
      rw [hid]
      exact ht
    · rfl
    · rfl

/-- C3, at the failing input: `sBug` holds a funded transaction whose buyer
(id 2) is missing from the user database.  The seller's
`confirm_transaction` call returns False — `update_transaction` trips over
`get_user(buyer_id).transactions` on None and its blanket `except` swallows
the error — yet the stored transaction has already been mutated to status
"confirmed".  With the buyer registered (`sBugReg`), the same call returns
True as the claim states. -/
theorem confirm_unregistered_buyer_bug :
    (confirmTransaction sBug "T1" 1 7).1 = false
    ∧ ((confirmTransaction sBug "T1" 1 7).2.transactions "T1").map (fun t => t.status)
        = some "confirmed"
    ∧ (confirmTransaction sBugReg "T1" 1 7).1 = true
    ∧ ((confirmTransaction sBugReg "T1" 1 7).2.transactions "T1").map (fun t => t.status)
        = some "confirmed" := by
  refine ⟨?_, ?_, ?_, ?_⟩ <;>
    simp [confirmTransaction, sBug, sBugReg, tFundedBug, updateTransaction, storeTransaction]

/-- C6, at a concrete input: for amount 0.1 the creation flow stores fee
`0.1 * 2.5 / 100 = 0.0025`, which is not a two-decimal number, so it differs
from `round(amount * TRANSACTION_FEE_PERCENTAGE / 100, 2) = 0.00` (tie-free,
so every rounding convention agrees). -/
theorem fee_rounding_counterexample :
    (makeFlowTransaction "AB123456" "t" "d" (1 / 10) "bank" 1 "alice" 0).fee = 1 / 400
    ∧ round2 (1 / 10 * TRANSACTION_FEE_PERCENTAGE / 100) = 0
    ∧ (makeFlowTransaction "AB123456" "t" "d" (1 / 10) "bank" 1 "alice" 0).fee
        ≠ round2 (1 / 10 * TRANSACTION_FEE_PERCENTAGE / 100) := by
  have h1 : (makeFlowTransaction "AB123456" "t" "d" (1 / 10) "bank" 1 "alice" 0).fee
      = 1 / 400 := by
    show flowFee (1 / 10) = 1 / 400
    norm_num [flowFee, TRANSACTION_FEE_PERCENTAGE]
  have h2 : round2 (1 / 10 * TRANSACTION_FEE_PERCENTAGE / 100) = 0 := by
    have : (1 / 10 * TRANSACTION_FEE_PERCENTAGE / 100 : ℚ) * 100 = 1 / 4 := by
      norm_num [TRANSACTION_FEE_PERCENTAGE]
    rw [round2, this]
    norm_num [round_eq]
  refine ⟨h1, h2, ?_⟩
  rw [h1, h2]
  norm_num

/-- C6, amended: the creation flow stores `fee = amount * 2.5 / 100` exactly
(no rounding), the transaction's total amount is `amount + fee`, and none of
the lifecycle operations (confirm, complete, cancel, open dispute, resolve
dispute) changes any stored transaction's amount or fee. -/
theorem fee_invariant_amended (tid title desc : String) (a : ℚ) (pm : String)
    (seller : Int) (sun : String) (now : ℚ) (s : EscrowState) (tid2 : String)
    (uid : Int) (r reason ev : String) (i : String) (hkey : s.KeyedById) :
    (makeFlowTransaction tid title desc a pm seller sun now).fee
        = a * TRANSACTION_FEE_PERCENTAGE / 100
    ∧ (makeFlowTransaction tid title desc a pm seller sun now).total_amount
        = (makeFlowTransaction tid title desc a pm seller sun now).amount
          + (makeFlowTransaction tid title desc a pm seller sun now).fee
    ∧ amountFeeAt (confirmTransaction s tid2 uid now).2 i = amountFeeAt s i
    ∧ amountFeeAt (completeTransaction s tid2 uid now).2 i = amountFeeAt s i
    ∧ amountFeeAt (cancelTransaction s tid2 uid now).2 i = amountFeeAt s i
    ∧ amountFeeAt (openDisputeEs s tid2 uid reason ev now).2 i = amountFeeAt s i
    ∧ amountFeeAt (resolveDisputeEs s tid2 r now).2 i = amountFeeAt s i := by
  refine ⟨?_, rfl, amountFeeAt_confirm s hkey tid2 uid now i,
    amountFeeAt_complete s hkey tid2 uid now i, amountFeeAt_cancel s hkey tid2 uid now i,
    amountFeeAt_openDispute s hkey tid2 uid reason ev now i,
    amountFeeAt_resolveDispute s hkey tid2 r now i⟩
  show flowFee a = a * TRANSACTION_FEE_PERCENTAGE / 100
  rw [flowFee, mul_div_assoc]

/-- `sW8`'s transaction dict is keyed by transaction id. -/
lemma sW8_keyed : sW8.KeyedById := by
  intro i t h
  simp only [sW8] at h
  split at h
  · next hi =>
    injection h with h2
    subst h2
    exact hi.symm
  · exact absurd h (by simp)

/-- Witness for the amended fee invariant at a concrete flow transaction and
a concrete confirm call. -/
theorem fee_invariant_amended_witness :
    (makeFlowTransaction "AB123456" "t" "d" 100 "bank" 1 "alice" 0).fee
        = 100 * TRANSACTION_FEE_PERCENTAGE / 100
    ∧ amountFeeAt (confirmTransaction sW8 "T1" 1 7).2 "T1" = amountFeeAt sW8 "T1" := by
  have h := fee_invariant_amended "AB123456" "t" "d" 100 "bank" 1 "alice" 0 sW8 "T1" 1
    "seller" "late" "log" "T1" sW8_keyed
  exact ⟨h.1, h.2.2.1⟩

/-- The escrow service's `resolve_dispute` on an existing transaction (keyed
by its id) with an open dispute: returns True, stores the resolved dispute
record, and stores the transaction with status and `completed_at` mapped from
the resolution. -/
lemma resolveDisputeEs_success (s : EscrowState) (r : String) (now : ℚ)
    (t : Transaction) (d : EsDispute) (ht : s.transactions t.id = some t)
    (hd : s.disputes t.id = some d) (hopen : d.status = "open") :
    (resolveDisputeEs s t.id r now).1 = true
    ∧ (resolveDisputeEs s t.id r now).2.disputes t.id =
        some { d with status := "resolved", resolution := some r, resolved_at := some now }
    ∧ (resolveDisputeEs s t.id r now).2.transactions t.id =
        some { t with
          status := if r = "seller" then "completed" else "refunded",
          completed_at := if r = "seller" then some now else t.completed_at,
          updated_at := some now,
          dispute := some ("resolved", some r) } := by
  have hne := not_not_intro hopen
  by_cases hb : r = "buyer"
  · subst hb
    simp only [resolveDisputeEs, ht, hd, if_neg hne]
    refine ⟨by trivial, ?_, ?_⟩ <;>
      simp [updateTransaction_snd_some, ht, storeTransaction]
  · by_cases hs : r = "seller"
    · subst hs
      simp only [resolveDisputeEs, ht, hd, if_neg hne]
      refine ⟨by trivial, ?_, ?_⟩ <;>
        simp [updateTransaction_snd_some, ht, storeTransaction]
    · simp only [resolveDisputeEs, ht, hd, if_neg hne, if_neg hb, if_neg hs]
      refine ⟨by trivial, ?_, ?_⟩ <;>
        simp [updateTransaction_snd_some, ht, storeTransaction, hs]

/-- C2: on a state keyed by transaction id, `resolve_dispute` with a
resolution in {buyer, seller, refund} succeeds exactly when the transaction
and its dispute exist and the dispute is open; on success the dispute is
stored resolved with the resolution and `resolved_at` recorded, and the
transaction's status becomes "completed" with `completed_at` set for
resolution "seller" and "refunded" (with `completed_at` untouched)
otherwise; in every other case it returns False and the state is
unchanged. -/
theorem resolve_dispute_escrow_spec (s : EscrowState) (tid r : String) (now : ℚ)
    (hr : r = "buyer" ∨ r = "seller" ∨ r = "refund") (hkey : s.KeyedById) :
    ((resolveDisputeEs s tid r now).1 = true ↔
      ∃ t d, s.transactions tid = some t ∧ s.disputes tid = some d ∧ d.status = "open")
    ∧ (∀ t d, s.transactions tid = some t → s.disputes tid = some d → d.status = "open" →
        ((resolveDisputeEs s tid r now).2.disputes tid =
          some { d with status := "resolved", resolution := some r, resolved_at := some now })
        ∧ (((resolveDisputeEs s tid r now).2.transactions tid).map
            (fun x => (x.status, x.completed_at)) =
          some (if r = "seller" then ("completed", some now) else ("refunded", t.completed_at))))
    ∧ ((resolveDisputeEs s tid r now).1 = false → (resolveDisputeEs s tid r now).2 = s) := by
  rcases ht : s.transactions tid with _ | t
  · rcases hd : s.disputes tid with _ | d <;>
      simp only [resolveDisputeEs, ht, hd] <;>
      refine ⟨by simp, ?_, by simp⟩ <;>
      · intro t2 d2 h1 _ _
        simp at h1
  · rcases hd : s.disputes tid with _ | d
    · simp only [resolveDisputeEs, ht, hd]
      refine ⟨by simp, ?_, by simp⟩
      intro t2 d2 _ h2 _
      simp at h2
    · have hid : t.id = tid := hkey tid t ht
      subst hid
      by_cases hopen : d.status = "open"
      · have hsucc := resolveDisputeEs_success s r now t d ht hd hopen
        refine ⟨⟨fun _ => ⟨t, d, rfl, rfl, hopen⟩, fun _ => hsucc.1⟩, ?_, ?_⟩
        · intro t2 d2 h1 h2 h3
          injection h1 with h1
          injection h2 with h2
          subst h1
          subst h2
          refine ⟨hsucc.2.1, ?_⟩
          rw [hsucc.2.2]
          by_cases hs : r = "seller"
          · simp [hs]
          · simp [hs]
        · intro hfalse
          rw [hsucc.1] at hfalse
          exact absurd hfalse (by simp)
      · simp only [resolveDisputeEs, ht, hd, if_pos hopen]
        refine ⟨?_, ?_, by simp⟩
        · constructor
          · intro h
            exact absurd h (by simp)
          · rintro ⟨t2, d2, h1, h2, h3⟩
            injection h1 with h1
            injection h2 with h2
            subst h1
            subst h2
            exact absurd h3 hopen
        · intro t2 d2 h1 h2 h3
          injection h1 with h1
          injection h2 with h2
          subst h1
          subst h2
          exact absurd h3 hopen

/-- `sW2`'s transaction dict is keyed by transaction id. -/
lemma sW2_keyed : sW2.KeyedById := by
  intro i t h
  simp only [sW2] at h
  split at h
  · next hi =>
    injection h with h2
    subst h2
    exact hi.symm
  · exact absurd h (by simp)

/-- Witness for C2 at a concrete disputed transaction resolved for the
seller. -/
theorem resolve_dispute_escrow_witness :
    (resolveDisputeEs sW2 "T1" "seller" 9).1 = true
    ∧ ((resolveDisputeEs sW2 "T1" "seller" 9).2.transactions "T1").map
        (fun x => (x.status, x.completed_at)) = some ("completed", some 9) := by
  have h := resolve_dispute_escrow_spec sW2 "T1" "seller" 9 (Or.inr (Or.inl rfl)) sW2_keyed
  have htx : sW2.transactions "T1" = some tW2 := by simp [sW2]
  have hdx : sW2.disputes "T1" = some dW2 := by simp [sW2]
  have hop : dW2.status = "open" := rfl
  refine ⟨h.1.mpr ⟨tW2, dW2, htx, hdx, hop⟩, ?_⟩
  have h2 := (h.2.1 tW2 dW2 htx hdx hop).2
  rw [h2]
  simp

/-- The escrow service's `open_dispute` on an existing transaction (keyed by
its id) passing all guards: returns True, stores the open dispute with the
opener's role, and stores the transaction with status "disputed". -/
lemma openDisputeEs_success (s : EscrowState) (uid : Int) (reason ev : String) (now : ℚ)
    (t : Transaction) (ht : s.transactions t.id = some t)
    (hauth : ¬ (uid ≠ t.seller_id ∧ t.buyer_id ≠ some uid))
    (hstat : ¬ (t.status ≠ "funded" ∧ t.status ≠ "confirmed"))
    (hnd : s.disputes t.id = none) :
    (openDisputeEs s t.id uid reason ev now).1 = true
    ∧ (openDisputeEs s t.id uid reason ev now).2.disputes t.id =
        some { transaction_id := t.id,
               opened_by := if uid = t.seller_id then "seller" else "buyer",
               reason := reason, evidence := ev, response := none, status := "open",
               resolution := none, opened_at := now, resolved_at := none }
    ∧ (openDisputeEs s t.id uid reason ev now).2.transactions t.id =
        some { t with status := "disputed", updated_at := some now,
                      dispute := some ("open", none) } := by
  simp only [openDisputeEs, ht, if_neg hauth, if_neg hstat, hnd, Option.isSome_none,
    Bool.false_eq_true, if_false]
  refine ⟨by trivial, ?_, ?_⟩ <;>
    simp [updateTransaction_snd_some, ht, storeTransaction]

/-- C8: on a state keyed by transaction id, `open_dispute` succeeds exactly
when the transaction exists, the caller is its seller or buyer, the status is
funded or confirmed, and no dispute record exists for the transaction; on
success it stores an open dispute whose `opened_by` is "seller" when the
caller is the seller and "buyer" otherwise, and marks the transaction
disputed; in every other case it returns False and the state is unchanged;
and after a successful call, any further `open_dispute` on the same
transaction returns False. -/
theorem open_dispute_escrow_spec (s : EscrowState) (tid : String) (uid : Int)
    (reason ev : String) (now : ℚ) (hkey : s.KeyedById) :
    ((openDisputeEs s tid uid reason ev now).1 = true ↔
      ∃ t, s.transactions tid = some t
        ∧ (uid = t.seller_id ∨ t.buyer_id = some uid)
        ∧ (t.status = "funded" ∨ t.status = "confirmed")
        ∧ s.disputes tid = none)
    ∧ (∀ t, s.transactions tid = some t →
        (uid = t.seller_id ∨ t.buyer_id = some uid) →
        (t.status = "funded" ∨ t.status = "confirmed") →
        s.disputes tid = none →
        ((openDisputeEs s tid uid reason ev now).2.disputes tid =
          some { transaction_id := tid,
                 opened_by := if uid = t.seller_id then "seller" else "buyer",
                 reason := reason, evidence := ev, response := none, status := "open",
                 resolution := none, opened_at := now, resolved_at := none })
        ∧ (((openDisputeEs s tid uid reason ev now).2.transactions tid).map
            (fun x => x.status) = some "disputed"))
    ∧ ((openDisputeEs s tid uid reason ev now).1 = false →
        (openDisputeEs s tid uid reason ev now).2 = s)
    ∧ ((openDisputeEs s tid uid reason ev now).1 = true →
        ∀ (uid2 : Int) (r2 e2 : String) (now2 : ℚ),
          (openDisputeEs (openDisputeEs s tid uid reason ev now).2 tid uid2 r2 e2 now2).1
            = false) := by
  have hconv : ∀ t : Transaction,
      (uid = t.seller_id ∨ t.buyer_id = some uid) ↔
        ¬ (uid ≠ t.seller_id ∧ t.buyer_id ≠ some uid) := by
    intro t
    constructor
    · rintro (h | h) ⟨h1, h2⟩
      · exact h1 h
      · exact h2 h
    · intro h
      by_cases h1 : uid = t.seller_id
      · exact Or.inl h1
      · right
        by_cases h2 : t.buyer_id = some uid
        · exact h2
        · exact absurd ⟨h1, h2⟩ h
  rcases ht : s.transactions tid with _ | t
  · simp only [openDisputeEs, ht]
    refine ⟨by simp, ?_, by simp, by simp⟩
    intro t2 h1 _ _ _
    simp at h1
  · have hid : t.id = tid := hkey tid t ht
    subst hid
    by_cases hauth : uid ≠ t.seller_id ∧ t.buyer_id ≠ some uid
    · simp only [openDisputeEs, ht, if_pos hauth]
      refine ⟨?_, ?_, by simp, by simp⟩
      · constructor
        · intro h
          exact absurd h (by simp)
        · rintro ⟨t2, h1, h2, _, _⟩
          injection h1 with h1
          subst h1
          exact absurd hauth ((hconv t).mp h2)
      · intro t2 h1 h2 _ _
        injection h1 with h1
        subst h1
        exact absurd hauth ((hconv t).mp h2)
    · by_cases hstat : t.status ≠ "funded" ∧ t.status ≠ "confirmed"
      · simp only [openDisputeEs, ht, if_neg hauth, if_pos hstat]
        refine ⟨?_, ?_, by simp, by simp⟩
        · constructor
          · intro h
            exact absurd h (by simp)
          · rintro ⟨t2, h1, _, h3, _⟩
            injection h1 with h1
            subst h1
            rcases h3 with h3 | h3
            · exact (hstat.1 h3).elim
            · exact (hstat.2 h3).elim
        · intro t2 h1 _ h3 _
          injection h1 with h1
          subst h1
          rcases h3 with h3 | h3
          · exact (hstat.1 h3).elim
          · exact (hstat.2 h3).elim
      · have hstatOr : t.status = "funded" ∨ t.status = "confirmed" := by
          by_cases hf : t.status = "funded"
          · exact Or.inl hf
          · right
            by_cases hc : t.status = "confirmed"
            · exact hc
            · exact absurd ⟨hf, hc⟩ hstat
        rcases hnd : s.disputes t.id with _ | d0
        · have hsucc := openDisputeEs_success s uid reason ev now t ht hauth hstat hnd
          refine ⟨⟨fun _ => ⟨t, rfl, (hconv t).mpr hauth, hstatOr, rfl⟩, fun _ => hsucc.1⟩,
            ?_, ?_, ?_⟩
          · intro t2 h1 _ _ _
            injection h1 with h1
            subst h1
            refine ⟨hsucc.2.1, ?_⟩
            rw [hsucc.2.2]
            rfl
          · intro hfalse
            rw [hsucc.1] at hfalse
            exact absurd hfalse (by simp)
          · intro _ uid2 r2 e2 now2
            set s2 := (openDisputeEs s t.id uid reason ev now).2 with hs2
            have hK := hsucc.2.2
            simp only [openDisputeEs, hK]
            split_ifs with h1 h2 h3
            · rfl
            · rfl
            · exact absurd ⟨by simp, by simp⟩ h2
            · exact absurd ⟨by simp, by simp⟩ h2
        · simp only [openDisputeEs, ht, if_neg hauth, if_neg hstat, hnd]
          refine ⟨?_, ?_, by simp, by simp⟩
          · constructor
            · intro h
              simp at h
            · rintro ⟨t2, h1, _, _, h4⟩
              simp at h4
          · intro t2 h1 _ _ h4
            simp at h4

/-- Witness for C8 at a concrete funded transaction, the buyer opening the
dispute. -/
theorem open_dispute_escrow_witness :
    (openDisputeEs sW8 "T1" 2 "late" "log" 5).1 = true
    ∧ ((openDisputeEs sW8 "T1" 2 "late" "log" 5).2.transactions "T1").map
        (fun x => x.status) = some "disputed" := by
  have h := open_dispute_escrow_spec sW8 "T1" 2 "late" "log" 5 sW8_keyed
  have htx : sW8.transactions "T1" = some tW8 := by simp [sW8]
  have hdx : sW8.disputes "T1" = none := rfl
  have hb : tW8.buyer_id = some 2 := rfl
  refine ⟨h.1.mpr ⟨tW8, htx, Or.inr hb, Or.inl rfl, hdx⟩, ?_⟩
  exact (h.2.1 tW8 htx (Or.inr hb) (Or.inl rfl) hdx).2

/-- C10: the dispute system's `resolve_dispute` returns None exactly when the
dispute id is unknown; for every existing dispute — with no check of its
previous status or of the moderator assignment — it returns the dispute with
status "resolved" and the resolution fields stored, stores it, and for an
existing moderator decrements `current_case_load` and increments
`cases_resolved`; at the concrete state `sC10`, resolving the
already-resolved dispute "D1" again drives moderator "M1"'s case load to -1,
so no `current_case_load ≥ 0` invariant is maintained. -/
theorem resolve_dispute_system_spec (s : DisputeState) (did mid rt rn md : String) (now : ℚ) :
    ((resolveDispute s did mid rt rn md now).1 = none ↔ s.disputes did = none)
    ∧ (∀ d, s.disputes did = some d →
        ((resolveDispute s did mid rt rn md now).1 =
          some { d with status := "resolved", resolved_at := some now,
                        resolution_type := some rt, resolution_notes := some rn,
                        moderator_decision := some md, last_updated := now })
        ∧ (((resolveDispute s did mid rt rn md now).2.disputes did).map (fun x => x.status)
            = some "resolved")
        ∧ (∀ m, s.moderators mid = some m →
            ((resolveDispute s did mid rt rn md now).2.moderators mid).map
              (fun x => (x.current_case_load, x.cases_resolved))
              = some (m.current_case_load - 1, m.cases_resolved + 1)))
    ∧ (((resolveDispute sC10 "D1" "M1" "refund_buyer" "note" "dec" 10).2.moderators "M1").map
        (fun x => x.current_case_load) = some (-1)) := by
  have hconc : ((resolveDispute sC10 "D1" "M1" "refund_buyer" "note" "dec" 10).2.moderators
      "M1").map (fun x => x.current_case_load) = some (-1) := by
    norm_num [resolveDispute, sC10, dC10, mC10, updateModeratorStats]
  rcases hd : s.disputes did with _ | d
  · simp only [resolveDispute, hd]
    refine ⟨by simp, ?_, hconc⟩
    intro d2 h2
    simp at h2
  · simp only [resolveDispute, hd]
    refine ⟨by simp, ?_, hconc⟩
    intro d2 h2
    injection h2 with h2
    subst h2
    refine ⟨rfl, ?_, ?_⟩
    · rcases hm : s.moderators mid with _ | m <;> simp [hm]
    · intro m hm
      simp [hm, updateModeratorStats]

/-- Membership in the badge rows survives the awarding loop, for any rule
list and any profile. -/
lemma mem_checkBadgesFold {b : String} (u : UserProfile) (types : List String) :
    ∀ (rules : List BadgeRule) (badges : List String), b ∈ badges →
      b ∈ checkBadgesFold u types rules badges := by
  intro rules
  induction rules with
  | nil => exact fun badges hb => hb
  | cons r rest ih =>
    intro badges hb
    simp only [checkBadgesFold]
    split
    · exact ih _ (List.mem_append_left _ hb)
    · exact ih _ hb

/-- A rule of the list whose condition holds and whose badge type exists
leaves its badge present after the awarding loop. -/
lemma rule_mem_checkBadgesFold (u : UserProfile) (types : List String) {n : String}
    {c : UserProfile → Bool} :
    ∀ (rules : List BadgeRule) (badges : List String), (n, c) ∈ rules → c u = true →
      n ∈ types → n ∈ checkBadgesFold u types rules badges := by
  intro rules
  induction rules with
  | nil =>
    intro badges hr
    exact absurd hr (List.not_mem_nil _)
  | cons r rest ih =>
    intro badges hr hc ht
    rcases List.mem_cons.mp hr with heq | hmem
    · have heq2 : r = (n, c) := heq.symm
      subst heq2
      simp only [checkBadgesFold]
      by_cases hb : n ∈ badges
      · rw [if_neg (by simp [hb])]
        exact mem_checkBadgesFold u types rest badges hb
      · rw [if_pos ⟨hc, ht, hb⟩]
        exact mem_checkBadgesFold u types rest _
          (List.mem_append_right _ (List.mem_singleton.mpr rfl))
    · simp only [checkBadgesFold]
      split <;> exact ih _ hmem hc ht

/-- When every satisfied rule's badge is already held, the awarding loop is
the identity. -/
lemma checkBadgesFold_fixed (u : UserProfile) (types : List String) :
    ∀ (rules : List BadgeRule) (badges : List String),
      (∀ p ∈ rules, p.2 u = true → p.1 ∈ types → p.1 ∈ badges) →
      checkBadgesFold u types rules badges = badges := by
  intro rules
  induction rules with
  | nil => exact fun badges _ => rfl
  | cons r rest ih =>
    intro badges h
    have hng : ¬ (r.2 u ∧ r.1 ∈ types ∧ r.1 ∉ badges) := by
      rintro ⟨h1, h2, h3⟩
      exact h3 (h r (List.mem_cons_self r rest) h1 h2)
    simp only [checkBadgesFold]
    rw [if_neg hng]
    exact ih badges (fun p hp => h p (List.mem_cons_of_mem _ hp))

/-- The awarding loop never appends a badge the user already holds, so the
count of a held badge is untouched. -/
lemma count_checkBadgesFold_of_mem {y : String} (u : UserProfile) (types : List String) :
    ∀ (rules : List BadgeRule) (badges : List String), y ∈ badges →
      (checkBadgesFold u types rules badges).count y = badges.count y := by
  intro rules
  induction rules with
  | nil => exact fun badges _ => rfl
  | cons r rest ih =>
    intro badges hy
    simp only [checkBadgesFold]
    split
    · next hcond =>
      rw [ih _ (List.mem_append_left _ hy)]
      have hne : ¬ (r.1 = y) := fun he => hcond.2.2 (he ▸ hy)
      rw [List.count_append]
      simp [List.count_cons, hne]
    · exact ih _ hy

/-- The awarding loop inserts a badge the user does not yet hold at most
once. -/
lemma count_checkBadgesFold_le_one {y : String} (u : UserProfile) (types : List String) :
    ∀ (rules : List BadgeRule) (badges : List String), y ∉ badges →
      (checkBadgesFold u types rules badges).count y ≤ 1 := by
  intro rules
  induction rules with
  | nil =>
    intro badges hy
    simp [checkBadgesFold, List.count_eq_zero.mpr (by simpa using hy)]
  | cons r rest ih =>
    intro badges hy
    simp only [checkBadgesFold]
    split
    · by_cases hr1 : r.1 = y
      · subst hr1
        rw [count_checkBadgesFold_of_mem u types rest _
          (List.mem_append_right _ (List.mem_singleton.mpr rfl))]
        rw [List.count_append, List.count_eq_zero.mpr (by simpa using hy)]
        simp [List.count_cons]
      · have hy2 : y ∉ badges ++ [r.1] := by
          simp only [List.mem_append, List.mem_singleton]
          rintro (h | h)
          · exact hy h
          · exact hr1 h.symm
        exact ih _ hy2
    · exact ih _ hy

/-- C9: `_check_badges` only ever appends badge rows — every badge held
before a run (under any profile, also one that no longer satisfies the rule)
is still held after it; a second run on an unchanged profile is the identity
(idempotence); and for a user who satisfies a rule of the table whose badge
type exists and who does not yet hold the badge, running the check twice
leaves exactly one badge row for that rule. -/
theorem badge_ratchet (u u2 : UserProfile) (types badges : List String) (b y : String)
    (c : UserProfile → Bool) :
    (b ∈ badges → b ∈ checkBadges u2 types badges)
    ∧ checkBadges u types (checkBadges u types badges) = checkBadges u types badges
    ∧ ((y, c) ∈ badgeRules → c u = true → y ∈ types → y ∉ badges →
        (checkBadges u types (checkBadges u types badges)).count y = 1) := by
  have hidem : checkBadges u types (checkBadges u types badges) = checkBadges u types badges := by
    apply checkBadgesFold_fixed
    intro p hp h1 h2
    have hp2 : (p.1, p.2) ∈ badgeRules := by simpa using hp
    exact rule_mem_checkBadgesFold u types badgeRules badges hp2 h1 h2
  refine ⟨fun hb => mem_checkBadgesFold u2 types badgeRules badges hb, hidem, ?_⟩
  intro hr hc ht hy
  rw [hidem]
  refine le_antisymm (count_checkBadgesFold_le_one u types badgeRules badges hy) ?_
  exact List.count_pos_iff.mpr (rule_mem_checkBadgesFold u types badgeRules badges hr hc ht)

end EscrowBot
